import Mathlib

/-!
Verification of the ContestHub server core (contest lifecycle, payment
settlement, submissions, winner resolution) against its design document.

The Express/MongoDB handlers in src/index.js and src/unnamed/part_000 are
embedded shallowly: each MongoDB collection is a list of records, and each
HTTP handler becomes a pure function from the request data and the store
state to the new store state paired with the handler result.  MongoDB
findOne is List.find?, insertOne appends to the list, updateOne rewrites
the first record matching the filter (updateFirst below), and deleteOne
removes the first matching record (List.eraseP).
-/

namespace ContestHub

/-- A MongoDB ObjectId, abstracted to a natural number. -/
abbrev Oid := Nat

/-- A contest document.  The descriptive request-body fields (title, type,
prizeMoney, deadline, creatorEmail, ...) are kept as an opaque key/value
payload because no handler in the core inspects them; the fields the core
reads and writes (status, participants, winnerEmail, winnerSubmissionId)
are explicit. -/
structure Contest where
  id : Oid
  payload : List (String × String)
  status : String
  participants : Nat
  winnerEmail : Option String
  winnerSubmissionId : Option Oid
  deriving DecidableEq, Repr

/-- A submission document (src/index.js POST /submissions/:contestId). -/
structure Submission where
  id : Oid
  contestId : Oid
  userEmail : String
  submissionLink : String
  isWinner : Bool
  deriving DecidableEq, Repr

/-- A payment document inserted by POST /verify-payment. -/
structure Payment where
  contestId : Oid
  userEmail : String
  amount : Nat
  stripeSessionId : String
  deriving DecidableEq, Repr

/-- The store: the contests, submissions and payments collections of the
contest_hub database. -/
structure DB where
  contests : List Contest
  submissions : List Submission
  payments : List Payment
  deriving DecidableEq, Repr

/-- A Stripe checkout session as retrieved by stripe.checkout.sessions.retrieve
in POST /verify-payment: its settlement status, the settled total, and the
metadata (contestId, userEmail) echoed back from session creation. -/
structure Session where
  id : String
  payment_status : String
  amount_total : Nat
  contestId : Oid
  userEmail : String
  deriving DecidableEq, Repr

/-- MongoDB updateOne semantics on a list collection: rewrite the first
record matching the filter p with f, leave everything else in place. -/
def updateFirst (p : α → Bool) (f : α → α) : List α → List α
  | [] => []
  | x :: xs => if p x then f x :: xs else x :: updateFirst p f xs

/-- The filter of the duplicate-payment lookup in POST /verify-payment:
an existing payment for the same (contestId, userEmail) pair. -/
def matchesPair (cid : Oid) (email : String) (p : Payment) : Bool :=
  p.contestId == cid && p.userEmail == email

/-- Outcome of POST /verify-payment. -/
inductive VerifyResult
  | notPaid
  | alreadyRegistered
  | verified
  deriving DecidableEq, Repr

/-- POST /verify-payment (src/index.js lines 430-467; identically in
src/unnamed/part_000 lines 161-198).  Retrieves the session; rejects with
400 "Payment not completed" unless payment_status is "paid"; returns
"Already registered" without mutation when a payment for the metadata pair
already exists; otherwise inserts a payment record and increments the
participants counter of the contest with the metadata contestId. -/
def verifyPayment (session : Session) (db : DB) : DB × VerifyResult :=
  if session.payment_status ≠ "paid" then (db, .notPaid)
  else
    match db.payments.find? (matchesPair session.contestId session.userEmail) with
    | some _ => (db, .alreadyRegistered)
    | none =>
      let newPayment : Payment :=
        { contestId := session.contestId
          userEmail := session.userEmail
          amount := session.amount_total / 100
          stripeSessionId := session.id }
      let contests := updateFirst (fun c => c.id == session.contestId)
        (fun c => { c with participants := c.participants + 1 }) db.contests
      ({ db with payments := db.payments ++ [newPayment], contests := contests },
        .verified)

/-- PATCH /contests/confirm/:id (src/index.js lines 126-137): sets status
to "confirmed" on the contest with the given id, with no predicate on the
current status. -/
def confirmContest (id : Oid) (db : DB) : DB :=
  let contests := updateFirst (fun c => c.id == id)
    (fun c => { c with status := "confirmed" }) db.contests
  { db with contests := contests }

/-- PATCH /contests/reject/:id (src/index.js lines 139-150): sets status
to "rejected" on the contest with the given id, unconditionally. -/
def rejectContest (id : Oid) (db : DB) : DB :=
  let contests := updateFirst (fun c => c.id == id)
    (fun c => { c with status := "rejected" }) db.contests
  { db with contests := contests }

/-- Outcome of PATCH /contests/:id. -/
inductive PatchResult
  | missingStatus
  | conflict
  | patched
  deriving DecidableEq, Repr

/-- PATCH /contests/:id (src/index.js lines 268-291): 400 when the body has
no status; otherwise a single conditional updateOne with filter
(_id = id, status = "pending"); matchedCount 0 yields the 404
"Contest not found or already updated" response and no write. -/
def patchContestStatus (id : Oid) (status? : Option String) (db : DB) :
    DB × PatchResult :=
  match status? with
  | none => (db, .missingStatus)
  | some st =>
    let p := fun c : Contest => c.id == id && c.status == "pending"
    if db.contests.any p then
      ({ db with contests :=
          updateFirst p (fun c => { c with status := st }) db.contests },
        .patched)
    else (db, .conflict)

/-- POST /contests (src/index.js lines 239-247): takes the request body as
is, sets status := "pending" and participants := 0, and inserts.  There is
no validation of the body: the insert happens for every input. -/
def createContest (newId : Oid) (body : List (String × String)) (db : DB) : DB :=
  let contest : Contest :=
    { id := newId
      payload := body
      status := "pending"
      participants := 0
      winnerEmail := none
      winnerSubmissionId := none }
  { db with contests := db.contests ++ [contest] }

/-- Outcome of DELETE /contests/:id. -/
inductive DeleteResult
  | notFound
  | deleted
  deriving DecidableEq, Repr

/-- DELETE /contests/:id, the creator-facing variant (src/index.js lines
343-359): deleteOne with filter (_id = id) only — despite the comment
"Delete contest (only pending)", there is no status predicate; deletedCount
0 yields 404 "Contest not found". -/
def deleteContest (id : Oid) (db : DB) : DB × DeleteResult :=
  if db.contests.any (fun c => c.id == id) then
    ({ db with contests := db.contests.eraseP (fun c => c.id == id) }, .deleted)
  else (db, .notFound)

/-- Outcome of POST /submissions/:contestId. -/
inductive SubmitResult
  | alreadySubmitted
  | submitted
  deriving DecidableEq, Repr

/-- POST /submissions/:contestId (src/index.js lines 507-529): findOne on
(contestId, userEmail); an existing submission yields 400
"Already submitted" with no insert; otherwise a submission is inserted
with isWinner := false. -/
def submitGuarded (contestId newId : Oid) (userEmail submissionLink : String)
    (db : DB) : DB × SubmitResult :=
  match db.submissions.find?
      (fun s => s.contestId == contestId && s.userEmail == userEmail) with
  | some _ => (db, .alreadySubmitted)
  | none =>
    ({ db with submissions := db.submissions ++
        [{ id := newId
           contestId := contestId
           userEmail := userEmail
           submissionLink := submissionLink
           isWinner := false }] },
      .submitted)

/-- POST /submissions/:contestId from the earlier iteration
(src/unnamed/part_000 lines 230-248): inserts the submission with no
duplicate check, then increments the participants counter of the contest —
with no payment involved. -/
def submitWithIncrement (contestId newId : Oid)
    (userEmail submissionLink : String) (db : DB) : DB :=
  { db with
    submissions := db.submissions ++
      [{ id := newId
         contestId := contestId
         userEmail := userEmail
         submissionLink := submissionLink
         isWinner := false }]
    contests := updateFirst (fun c => c.id == contestId)
      (fun c => { c with participants := c.participants + 1 }) db.contests }

/-- Outcome of POST /contests/:contestId/declare-winner. -/
inductive DeclareResult
  | notFound
  | declared
  deriving DecidableEq, Repr

/-- POST /contests/:contestId/declare-winner (src/index.js lines 540-567):
findOne the submission by _id (404 "Submission not found" if absent, with
no write); then set isWinner := true on that submission and set
winnerSubmissionId, winnerEmail (the submission owner) and status "ended"
on the contest with the path contestId — with no check that the submission
references that contest, no predicate on the contest status, and no reset
of any previously declared winner. -/
def declareWinner (contestId submissionId : Oid) (db : DB) : DB × DeclareResult :=
  match db.submissions.find? (fun s => s.id == submissionId) with
  | none => (db, .notFound)
  | some submission =>
    let submissions := updateFirst (fun s => s.id == submissionId)
      (fun s => { s with isWinner := true }) db.submissions
    let contests := updateFirst (fun c => c.id == contestId)
      (fun c => { c with
          winnerSubmissionId := some submissionId
          winnerEmail := some submission.userEmail
          status := "ended" }) db.contests
    ({ db with submissions := submissions, contests := contests }, .declared)

/-- The settled payments referencing a contest (spec section 3: the source
of truth for the participants counter). -/
def settledPayments (db : DB) (cid : Oid) : Nat :=
  (db.payments.filter (fun p => p.contestId == cid)).length

/-- Spec section 3 invariant: every contest participants counter equals
the number of settled payments referencing that contest. -/
def ParticipantsInvariant (db : DB) : Prop :=
  ∀ c ∈ db.contests, c.participants = settledPayments db c.id

instance : DecidablePred ParticipantsInvariant := fun db =>
  inferInstanceAs (Decidable (∀ c ∈ db.contests, c.participants = settledPayments db c.id))

/-! ### Concrete store fixtures used by witnesses and counterexamples -/

/-- The empty contest_hub database. -/
def dbEmpty : DB := { contests := [], submissions := [], payments := [] }

/-- A contest sitting in the initial pending state. -/
def pendingContest : Contest :=
  { id := 2
    payload := [("title", "Logo design")]
    status := "pending"
    participants := 0
    winnerEmail := none
    winnerSubmissionId := none }

/-- A contest an admin has confirmed. -/
def confirmedContest : Contest :=
  { id := 1
    payload := [("title", "Essay contest")]
    status := "confirmed"
    participants := 0
    winnerEmail := none
    winnerSubmissionId := none }

/-- A contest an admin has rejected. -/
def rejectedContest : Contest :=
  { id := 3
    payload := []
    status := "rejected"
    participants := 0
    winnerEmail := none
    winnerSubmissionId := none }

/-- A store holding one confirmed and one pending contest. -/
def dbTwoContests : DB :=
  { contests := [confirmedContest, pendingContest], submissions := [], payments := [] }

/-- A store holding one rejected contest. -/
def dbRejected : DB :=
  { contests := [rejectedContest], submissions := [], payments := [] }

/-- A checkout session that never settled. -/
def sessionUnpaid : Session :=
  { id := "cs_unpaid"
    payment_status := "unpaid"
    amount_total := 1000
    contestId := 1
    userEmail := "alice@example.com" }

/-- A settled checkout session for contest 1 and alice. -/
def sessionPaid : Session :=
  { id := "cs_paid"
    payment_status := "paid"
    amount_total := 1000
    contestId := 1
    userEmail := "alice@example.com" }

/-- A submission alice already made for contest 1. -/
def subAlice : Submission :=
  { id := 20
    contestId := 1
    userEmail := "alice@example.com"
    submissionLink := "http://a"
    isWinner := false }

/-- A store where alice has already submitted to contest 1. -/
def dbOneSub : DB :=
  { contests := [confirmedContest], submissions := [subAlice], payments := [] }

/-- Contest 4, confirmed, with two submissions in play. -/
def contest4 : Contest :=
  { id := 4
    payload := [("title", "Poster contest")]
    status := "confirmed"
    participants := 2
    winnerEmail := none
    winnerSubmissionId := none }

/-- A submission by carol for contest 4. -/
def subCarol : Submission :=
  { id := 10
    contestId := 4
    userEmail := "carol@example.com"
    submissionLink := "http://c"
    isWinner := false }

/-- A submission by dave for contest 4. -/
def subDave : Submission :=
  { id := 11
    contestId := 4
    userEmail := "dave@example.com"
    submissionLink := "http://d"
    isWinner := false }

/-- A store where contest 4 has carol's and dave's submissions. -/
def dbWinner : DB :=
  { contests := [contest4], submissions := [subCarol, subDave], payments := [] }

/-- A store pairing carol's contest-4 submission with an unrelated
rejected contest (id 3): the mismatch fixture for C10. -/
def dbMismatch : DB :=
  { contests := [rejectedContest], submissions := [subCarol], payments := [] }

/-! ### Lemmas about updateFirst (MongoDB updateOne on a list collection) -/

/-- A record failing the updateOne filter survives the update unchanged. -/
theorem mem_updateFirst_of_not {α : Type} (p : α → Bool) (f : α → α) :
    ∀ (l : List α) (x : α), x ∈ l → p x = false → x ∈ updateFirst p f l := by
  intro l
  induction l with
  | nil => intro x hx _; exact absurd hx (List.not_mem_nil x)
  | cons y ys ih =>
    intro x hx hpx
    rw [updateFirst]
    by_cases hy : p y = true
    · rw [if_pos hy]
      rcases List.mem_cons.mp hx with rfl | h
      · simp [hpx] at hy
      · exact List.mem_cons_of_mem _ h
    · rw [if_neg hy]
      rcases List.mem_cons.mp hx with rfl | h
      · exact List.mem_cons_self x _
      · exact List.mem_cons_of_mem _ (ih x h hpx)

/-- When the updateOne filter is keyed to a single key value and the
collection has no duplicate keys, updating the first match is the same as
updating every match. -/
theorem updateFirst_eq_map {α : Type} (p : α → Bool) (f : α → α)
    (k : α → Oid) (key : Oid) (hp : ∀ x, p x = true → k x = key) :
    ∀ l : List α, (l.map k).Nodup →
      updateFirst p f l = l.map (fun x => if p x then f x else x) := by
  intro l
  induction l with
  | nil => intro _; rfl
  | cons y ys ih =>
    intro hnd
    rw [List.map_cons, List.nodup_cons] at hnd
    rw [updateFirst, List.map_cons]
    by_cases hy : p y = true
    · rw [if_pos hy, if_pos hy]
      have hys : ∀ x ∈ ys, ¬ p x = true := by
        intro x hx hpx
        apply hnd.1
        rw [hp y hy, ← hp x hpx]
        exact List.mem_map_of_mem k hx
      have hmap : List.map (fun x => if p x then f x else x) ys = List.map id ys :=
        List.map_congr_left (fun a ha => by rw [if_neg (hys a ha)]; rfl)
      rw [hmap, List.map_id]
    · rw [if_neg hy, if_neg hy, ih hnd.2]

/-- With unique keys, the record matching a keyed updateOne filter appears
updated in the result. -/
theorem mem_updateFirst_self {α : Type} (p : α → Bool) (f : α → α)
    (k : α → Oid) (key : Oid) (hp : ∀ x, p x = true → k x = key)
    (l : List α) (hnd : (l.map k).Nodup) (x : α) (hx : x ∈ l)
    (hpx : p x = true) : f x ∈ updateFirst p f l := by
  rw [updateFirst_eq_map p f k key hp l hnd]
  exact List.mem_map.mpr ⟨x, hx, by rw [if_pos hpx]⟩

/-- With unique keys, findOne on a keyed filter returns exactly the
matching record. -/
theorem find?_eq_some_of_unique {α : Type} (p : α → Bool)
    (k : α → Oid) (key : Oid) (hp : ∀ x, p x = true → k x = key) :
    ∀ l : List α, (l.map k).Nodup → ∀ x ∈ l, p x = true →
      l.find? p = some x := by
  intro l
  induction l with
  | nil => intro _ x hx; exact absurd hx (List.not_mem_nil x)
  | cons y ys ih =>
    intro hnd x hx hpx
    rw [List.map_cons, List.nodup_cons] at hnd
    by_cases hy : p y = true
    · rw [List.find?_cons_of_pos _ hy]
      rcases List.mem_cons.mp hx with rfl | h
      · rfl
      · have hk : k y ∈ List.map k ys := by
          rw [hp y hy, ← hp x hpx]
          exact List.mem_map_of_mem k h
        exact absurd hk hnd.1
    · rw [List.find?_cons_of_neg _ hy]
      rcases List.mem_cons.mp hx with rfl | h
      · exact absurd hpx hy
      · exact ih hnd.2 x h hpx

/-- PATCH /contests/:id never touches a contest that fails its
(id, status = "pending") filter. -/
theorem patchContestStatus_preserves (id : Oid) (st : String) (db : DB) :
    ∀ c ∈ db.contests, (c.id == id && c.status == "pending") = false →
      c ∈ (patchContestStatus id (some st) db).1.contests := by
  intro c hc hpc
  rw [patchContestStatus]
  cases hany : db.contests.any (fun c => c.id == id && c.status == "pending") with
  | false => simpa [hany] using hc
  | true =>
    simp only [hany, if_pos]
    exact mem_updateFirst_of_not _ _ db.contests c hc hpc

/-! ### C7: verify on an unsettled session -/

/-- C7: for every session whose gateway settlement status is anything other
than "paid", verify fails with the payment-incomplete response and performs
no local mutation: the store is returned unchanged, so no payment record is
created and no participants counter moves. -/
theorem verify_unpaid_no_mutation (session : Session) (db : DB)
    (h : session.payment_status ≠ "paid") :
    verifyPayment session db = (db, .notPaid) := by
  rw [verifyPayment, if_pos h]

/-- C7 witness: the unsettled session against a concrete store. -/
theorem verify_unpaid_no_mutation_witness :
    verifyPayment sessionUnpaid dbTwoContests = (dbTwoContests, .notPaid) :=
  verify_unpaid_no_mutation sessionUnpaid dbTwoContests (by decide)

/-! ### C8: POST /contests -/

/-- C8 counterexample: POST /contests with an empty request body — every
required field absent — still inserts a contest and reports nothing wrong,
refuting the claim that create fails with ValidationError without inserting
anything when required fields are absent. -/
theorem create_contest_counterexample :
    (createContest 9 [] dbEmpty).contests =
      [{ id := 9
         payload := []
         status := "pending"
         participants := 0
         winnerEmail := none
         winnerSubmissionId := none }] := by
  rfl

/-- C8 amended: create always produces a new contest whose status is
pending and whose participants counter is 0, for every input body; the
handler performs no validation, so absent required fields never prevent the
insert. -/
theorem create_contest_pending_zero (newId : Oid)
    (body : List (String × String)) (db : DB) :
    ∃ c : Contest,
      (createContest newId body db).contests = db.contests ++ [c]
      ∧ c.status = "pending" ∧ c.participants = 0 ∧ c.payload = body
      ∧ (createContest newId body db).submissions = db.submissions
      ∧ (createContest newId body db).payments = db.payments :=
  ⟨_, rfl, rfl, rfl, rfl, rfl, rfl⟩

/-! ### C9: DELETE /contests/:id (creator-facing) -/

/-- C9: the creator-facing DELETE /contests/:id in src/index.js deletes a
contest whose status is "confirmed" — its filter is only (_id = id), with
no status predicate, although the comment above it reads
"Delete contest (only pending)" and the earlier iteration in
src/unnamed/part_000 filters on (_id = id, status = "pending"). -/
theorem delete_contest_deletes_confirmed :
    deleteContest 1 { contests := [confirmedContest],
                      submissions := [], payments := [] } =
      (dbEmpty, .deleted) := by
  rfl

/-! ### C4: PATCH /contests/:id conditional transition -/

/-- C4: the status transition succeeds only when a pending contest with
the id exists — it is a single conditional write on the filter
(id, status = "pending"); when zero rows match, the caller receives the
conflict ("Contest not found or already updated") response and the store
is unchanged; and a contest outside the pending state is never
overwritten. -/
theorem patch_contest_conditional (id : Oid) (st : String) (db : DB) :
    ((¬ ∃ c ∈ db.contests, c.id = id ∧ c.status = "pending") →
      patchContestStatus id (some st) db = (db, .conflict))
    ∧ (∀ c ∈ db.contests, c.id = id → c.status = "pending" →
      (patchContestStatus id (some st) db).2 = .patched)
    ∧ (∀ c ∈ db.contests, c.status ≠ "pending" →
      c ∈ (patchContestStatus id (some st) db).1.contests) := by
  refine ⟨?_, ?_, ?_⟩
  · intro h
    have hany : db.contests.any
        (fun c => c.id == id && c.status == "pending") = false := by
      by_contra hc
      rw [Bool.not_eq_false, List.any_eq_true] at hc
      rcases hc with ⟨c, hc1, hc2⟩
      rw [Bool.and_eq_true, beq_iff_eq, beq_iff_eq] at hc2
      exact h ⟨c, hc1, hc2.1, hc2.2⟩
    simp only [patchContestStatus]
    rw [if_neg (by simp [hany])]
  · intro c hc h1 h2
    have hany : db.contests.any
        (fun c => c.id == id && c.status == "pending") = true := by
      refine List.any_eq_true.mpr ⟨c, hc, ?_⟩
      rw [Bool.and_eq_true, beq_iff_eq, beq_iff_eq]
      exact ⟨h1, h2⟩
    simp only [patchContestStatus]
    rw [if_pos hany]
  · intro c hc hst
    exact patchContestStatus_preserves id st db c hc (by simp [hst])

/-- C4 witness: on the two-contest store, id 5 matches nothing and yields
the conflict response unchanged; id 2 is pending and transitions, leaving
the confirmed contest untouched. -/
theorem patch_contest_conditional_witness :
    (patchContestStatus 5 (some "confirmed") dbTwoContests =
      (dbTwoContests, .conflict))
    ∧ ((patchContestStatus 2 (some "confirmed") dbTwoContests).2 = .patched)
    ∧ (confirmedContest ∈
        (patchContestStatus 2 (some "confirmed") dbTwoContests).1.contests) := by
  refine ⟨?_, ?_, ?_⟩
  · exact (patch_contest_conditional 5 "confirmed" dbTwoContests).1 (by decide)
  · exact (patch_contest_conditional 2 "confirmed" dbTwoContests).2.1
      pendingContest (by decide) (by decide) (by decide)
  · exact (patch_contest_conditional 2 "confirmed" dbTwoContests).2.2
      confirmedContest (by decide) (by decide)

/-! ### C2: the contest status state machine -/

/-- C2 counterexample: PATCH /contests/confirm/:id moves a contest whose
status is "rejected" straight to "confirmed" — its updateOne carries no
status predicate — refuting the claim that no operation ever moves a
contest out of the rejected state. -/
theorem confirm_rejected_counterexample :
    (dbRejected.contests.map Contest.status = ["rejected"])
    ∧ ((confirmContest 3 dbRejected).contests.map Contest.status =
        ["confirmed"]) :=
  ⟨rfl, rfl⟩

/-- C2 amended: only the guarded PATCH /contests/:id transition respects
the pending→{confirmed,rejected} state machine — a non-pending contest
survives it unchanged; the dedicated admin confirm and reject endpoints
overwrite the status of the addressed contest unconditionally, whatever
its current status (in particular out of "rejected" and "ended"), and
declare-winner likewise sets "ended" unconditionally. -/
theorem status_transition_amended (id : Oid) (st : String) (db : DB)
    (hnd : (db.contests.map Contest.id).Nodup) :
    (∀ c ∈ db.contests, c.status ≠ "pending" →
      c ∈ (patchContestStatus id (some st) db).1.contests)
    ∧ (∀ c ∈ db.contests, c.id = id →
      { c with status := "confirmed" } ∈ (confirmContest id db).contests)
    ∧ (∀ c ∈ db.contests, c.id = id →
      { c with status := "rejected" } ∈ (rejectContest id db).contests) := by
  refine ⟨?_, ?_, ?_⟩
  · intro c hc hst
    exact patchContestStatus_preserves id st db c hc (by simp [hst])
  · intro c hc hcid
    exact mem_updateFirst_self _ _ Contest.id id
      (fun x hx => by rwa [beq_iff_eq] at hx) db.contests hnd c hc
      (by rw [beq_iff_eq]; exact hcid)
  · intro c hc hcid
    exact mem_updateFirst_self _ _ Contest.id id
      (fun x hx => by rwa [beq_iff_eq] at hx) db.contests hnd c hc
      (by rw [beq_iff_eq]; exact hcid)

/-- C2 witness: the rejected contest survives the guarded transition
attempt, while the admin endpoints rewrite its status in both
directions. -/
theorem status_transition_amended_witness :
    (rejectedContest ∈
      (patchContestStatus 3 (some "confirmed") dbRejected).1.contests)
    ∧ ({ rejectedContest with status := "confirmed" } ∈
        (confirmContest 3 dbRejected).contests)
    ∧ ({ rejectedContest with status := "rejected" } ∈
        (rejectContest 3 dbRejected).contests) := by
  refine ⟨?_, ?_, ?_⟩
  · exact (status_transition_amended 3 "confirmed" dbRejected (by decide)).1
      rejectedContest (by decide) (by decide)
  · exact (status_transition_amended 3 "confirmed" dbRejected (by decide)).2.1
      rejectedContest (by decide) (by decide)
  · exact (status_transition_amended 3 "confirmed" dbRejected (by decide)).2.2
      rejectedContest (by decide) (by decide)

/-! ### C6: POST /submissions/:contestId duplicate guard -/

/-- C6: submit fails with the duplicate ("Already submitted") response,
leaving the store unchanged, when a submission for (contestId, userEmail)
already exists; and starting from a store with no submission for the pair,
two submit calls with identical (contestId, userEmail) insert a submission
with isWinner = false, leave exactly one submission for the pair, and the
second call fails as a duplicate without mutating anything. -/
theorem submit_duplicate_guard (db : DB) (cid n1 n2 : Oid)
    (email link1 link2 : String) :
    ((∃ s ∈ db.submissions, s.contestId = cid ∧ s.userEmail = email) →
      submitGuarded cid n1 email link1 db = (db, .alreadySubmitted))
    ∧ (db.submissions.filter
        (fun s => s.contestId == cid && s.userEmail == email) = [] →
      ((submitGuarded cid n1 email link1 db).2 = .submitted)
      ∧ ({ id := n1, contestId := cid, userEmail := email,
           submissionLink := link1, isWinner := false } ∈
          (submitGuarded cid n1 email link1 db).1.submissions)
      ∧ (((submitGuarded cid n1 email link1 db).1.submissions.filter
          (fun s => s.contestId == cid && s.userEmail == email)).length = 1)
      ∧ (submitGuarded cid n2 email link2
            (submitGuarded cid n1 email link1 db).1 =
          ((submitGuarded cid n1 email link1 db).1, .alreadySubmitted))) := by
  constructor
  · intro h
    rcases h with ⟨s, hs, h1, h2⟩
    have hp : (s.contestId == cid && s.userEmail == email) = true := by
      rw [Bool.and_eq_true, beq_iff_eq, beq_iff_eq]
      exact ⟨h1, h2⟩
    cases hfind : db.submissions.find?
        (fun s => s.contestId == cid && s.userEmail == email) with
    | none =>
      have := List.find?_eq_none.mp hfind s hs
      exact absurd hp this
    | some w => simp only [submitGuarded, hfind]
  · intro hfilter
    have hfind : db.submissions.find?
        (fun s => s.contestId == cid && s.userEmail == email) = none :=
      List.find?_eq_none.mpr (List.filter_eq_nil_iff.mp hfilter)
    refine ⟨?_, ?_, ?_, ?_⟩
    · simp only [submitGuarded, hfind]
    · simp only [submitGuarded, hfind]
      exact List.mem_append_right _ (List.mem_singleton.mpr rfl)
    · simp only [submitGuarded, hfind]
      rw [List.filter_append, hfilter]
      simp
    · simp only [submitGuarded, hfind]
      rw [List.find?_append, hfind]
      simp

/-- C6 witness: a duplicate submit against alice's existing submission is
rejected unchanged, and a first-time submit on the submission-free store
goes through with the duplicate-and-count conclusions. -/
theorem submit_duplicate_guard_witness :
    (submitGuarded 1 21 "alice@example.com" "http://b" dbOneSub =
      (dbOneSub, .alreadySubmitted))
    ∧ ((submitGuarded 1 20 "alice@example.com" "http://a"
        dbTwoContests).2 = .submitted) := by
  constructor
  · exact (submit_duplicate_guard dbOneSub 1 21 22 "alice@example.com"
      "http://b" "http://c").1 (by decide)
  · exact ((submit_duplicate_guard dbTwoContests 1 20 21 "alice@example.com"
      "http://a" "http://b").2 (by decide)).1

/-! ### C1: idempotency of verify on an already-paid session -/

/-- C1: for a paid session whose (contestId, userEmail) pair has no
payment yet, the first verify settles (inserting a payment and
incrementing the addressed contest once, all other contests untouched),
there is then exactly one payment record for the pair, and the second
verify with the same session returns the "Already registered" response and
mutates nothing. -/
theorem verify_payment_idempotent (session : Session) (db : DB)
    (hpaid : session.payment_status = "paid")
    (hfresh : db.payments.filter
      (matchesPair session.contestId session.userEmail) = [])
    (hnd : (db.contests.map Contest.id).Nodup) :
    ((verifyPayment session db).2 = .verified)
    ∧ (verifyPayment session (verifyPayment session db).1 =
        ((verifyPayment session db).1, .alreadyRegistered))
    ∧ (((verifyPayment session db).1.payments.filter
        (matchesPair session.contestId session.userEmail)).length = 1)
    ∧ (∀ c ∈ db.contests, c.id = session.contestId →
        { c with participants := c.participants + 1 } ∈
          (verifyPayment session db).1.contests)
    ∧ (∀ c ∈ db.contests, c.id ≠ session.contestId →
        c ∈ (verifyPayment session db).1.contests) := by
  have hnot : ¬ session.payment_status ≠ "paid" := by simp [hpaid]
  have hfind : db.payments.find?
      (matchesPair session.contestId session.userEmail) = none :=
    List.find?_eq_none.mpr (List.filter_eq_nil_iff.mp hfresh)
  refine ⟨?_, ?_, ?_, ?_, ?_⟩
  · simp only [verifyPayment, if_neg hnot, hfind]
  · simp only [verifyPayment, if_neg hnot, hfind]
    rw [List.find?_append, hfind]
    simp [matchesPair]
  · simp only [verifyPayment, if_neg hnot, hfind]
    rw [List.filter_append, hfresh]
    simp [matchesPair]
  · intro c hc hcid
    simp only [verifyPayment, if_neg hnot, hfind]
    exact mem_updateFirst_self _ _ Contest.id session.contestId
      (fun x hx => by rwa [beq_iff_eq] at hx) db.contests hnd c hc
      (by rw [beq_iff_eq]; exact hcid)
  · intro c hc hcid
    simp only [verifyPayment, if_neg hnot, hfind]
    exact mem_updateFirst_of_not _ _ db.contests c hc (by simp [hcid])

/-- C1 witness: the paid session for contest 1 against the two-contest
store with no payments. -/
theorem verify_payment_idempotent_witness :
    ((verifyPayment sessionPaid dbTwoContests).2 = .verified)
    ∧ (verifyPayment sessionPaid (verifyPayment sessionPaid dbTwoContests).1 =
        ((verifyPayment sessionPaid dbTwoContests).1, .alreadyRegistered))
    ∧ (((verifyPayment sessionPaid dbTwoContests).1.payments.filter
        (matchesPair sessionPaid.contestId sessionPaid.userEmail)).length = 1)
    ∧ ({ confirmedContest with participants := 1 } ∈
        (verifyPayment sessionPaid dbTwoContests).1.contests) := by
  obtain ⟨h1, h2, h3, h4, h5⟩ :=
    verify_payment_idempotent sessionPaid dbTwoContests rfl (by decide) (by decide)
  exact ⟨h1, h2, h3, h4 confirmedContest (by decide) (by decide)⟩

/-! ### C3: participants counter versus settled payments -/

/-- C3 counterexample: the earlier-iteration POST /submissions/:contestId
increments the participants counter of contest 1 without inserting any
payment, breaking the invariant that a contest participants counter
equals the number of settled payments referencing it. -/
theorem submit_increment_counterexample :
    ParticipantsInvariant dbTwoContests
    ∧ ¬ ParticipantsInvariant
        (submitWithIncrement 1 30 "bob@example.com" "http://b" dbTwoContests) := by
  constructor
  · decide
  · decide

/-- C3 amended: the settlement workflow itself maintains the invariant —
on a store with distinct contest ids, verify pairs every payment insertion
with one increment of the matching contest participants counter, so the
invariant is preserved by verify; but the earlier-iteration submission
endpoint (and edits or counter writes outside the settlement workflow)
increment the counter with no payment and can break it. -/
theorem verify_preserves_participants_invariant (session : Session) (db : DB)
    (hnd : (db.contests.map Contest.id).Nodup)
    (hinv : ParticipantsInvariant db) :
    ParticipantsInvariant (verifyPayment session db).1 := by
  by_cases hpaid : session.payment_status ≠ "paid"
  · rw [verifyPayment, if_pos hpaid]
    exact hinv
  · cases hfind : db.payments.find?
        (matchesPair session.contestId session.userEmail) with
    | some w =>
      simp only [verifyPayment, if_neg hpaid, hfind]
      exact hinv
    | none =>
      simp only [verifyPayment, if_neg hpaid, hfind]
      intro c' hc'
      simp only at hc'
      rw [updateFirst_eq_map _ _ Contest.id session.contestId
        (fun x hx => by rwa [beq_iff_eq] at hx) db.contests hnd] at hc'
      rcases List.mem_map.mp hc' with ⟨c, hc, hceq⟩
      subst hceq
      simp only [settledPayments, List.filter_append, List.length_append]
      by_cases hcid : (c.id == session.contestId) = true
      · rw [if_pos hcid]
        have hc2 : c.id = session.contestId := by rwa [beq_iff_eq] at hcid
        have hone := hinv c hc
        rw [settledPayments] at hone
        simp [hone, hc2]
      · rw [if_neg hcid]
        have hc2 : ¬ c.id = session.contestId := by
          intro h
          exact hcid (by rw [beq_iff_eq]; exact h)
        have hone := hinv c hc
        rw [settledPayments] at hone
        simp [hone]
        intro h
        exact absurd h.symm hc2

/-- C3 amended witness: verify on the settled session preserves the
invariant on the two-contest store. -/
theorem verify_preserves_participants_invariant_witness :
    ParticipantsInvariant (verifyPayment sessionPaid dbTwoContests).1 :=
  verify_preserves_participants_invariant sessionPaid dbTwoContests
    (by decide) (by decide)

/-! ### C5 and C10: declare-winner -/

/-- C5 counterexample: declare carol winner of contest 4, then declare
dave winner of contest 4 — the second call succeeds and leaves TWO
submissions of contest 4 with isWinner = true, because declare-winner
never resets a previously declared winner; this refutes the claim that on
success no other submission for the contest has isWinner = true. -/
theorem declare_winner_counterexample :
    ((declareWinner 4 11 (declareWinner 4 10 dbWinner).1).2 = .declared)
    ∧ (((declareWinner 4 11 (declareWinner 4 10 dbWinner).1).1.submissions.filter
        (fun s => s.contestId == 4 && s.isWinner)).length = 2) := by
  constructor
  · decide
  · decide

/-- C5 amended: declare-winner fails with the not-found response and
mutates nothing when no submission carries the id; on success (store with
distinct ids) it flips the targeted submission to isWinner = true, sets
the contest status to "ended" with winnerEmail the submission owner and
winnerSubmissionId the submission id — but every other submission keeps
its previous isWinner value, so a previously declared winner of the same
contest stays marked. -/
theorem declare_winner_amended (db : DB) (cid sid : Oid)
    (hnds : (db.submissions.map Submission.id).Nodup)
    (hndc : (db.contests.map Contest.id).Nodup) :
    ((∀ s ∈ db.submissions, s.id ≠ sid) →
      declareWinner cid sid db = (db, .notFound))
    ∧ (∀ s ∈ db.submissions, s.id = sid →
      ((declareWinner cid sid db).2 = .declared)
      ∧ ({ s with isWinner := true } ∈ (declareWinner cid sid db).1.submissions)
      ∧ (∀ t ∈ db.submissions, t.id ≠ sid →
          t ∈ (declareWinner cid sid db).1.submissions)
      ∧ (∀ c ∈ db.contests, c.id = cid →
          { c with status := "ended"
                   winnerEmail := some s.userEmail
                   winnerSubmissionId := some sid } ∈
            (declareWinner cid sid db).1.contests)
      ∧ (∀ c ∈ db.contests, c.id ≠ cid →
          c ∈ (declareWinner cid sid db).1.contests)) := by
  constructor
  · intro h
    have hfind : db.submissions.find? (fun s => s.id == sid) = none :=
      List.find?_eq_none.mpr (fun x hx => by simp [h x hx])
    simp only [declareWinner, hfind]
  · intro s hs hsid
    have hfind : db.submissions.find? (fun s => s.id == sid) = some s :=
      find?_eq_some_of_unique _ Submission.id sid
        (fun x hx => by rwa [beq_iff_eq] at hx) db.submissions hnds s hs
        (by rw [beq_iff_eq]; exact hsid)
    refine ⟨?_, ?_, ?_, ?_, ?_⟩
    · simp only [declareWinner, hfind]
    · simp only [declareWinner, hfind]
      exact mem_updateFirst_self _ _ Submission.id sid
        (fun x hx => by rwa [beq_iff_eq] at hx) db.submissions hnds s hs
        (by rw [beq_iff_eq]; exact hsid)
    · intro t ht htid
      simp only [declareWinner, hfind]
      exact mem_updateFirst_of_not _ _ db.submissions t ht (by simp [htid])
    · intro c hc hcid
      simp only [declareWinner, hfind]
      exact mem_updateFirst_self _ _ Contest.id cid
        (fun x hx => by rwa [beq_iff_eq] at hx) db.contests hndc c hc
        (by rw [beq_iff_eq]; exact hcid)
    · intro c hc hcid
      simp only [declareWinner, hfind]
      exact mem_updateFirst_of_not _ _ db.contests c hc (by simp [hcid])

/-- C5 amended witness: no submission 99 exists, so the call is rejected
unchanged; declaring submission 10 marks carol's submission, keeps dave's
untouched, and ends contest 4 with carol as winner. -/
theorem declare_winner_amended_witness :
    (declareWinner 4 99 dbWinner = (dbWinner, .notFound))
    ∧ ({ subCarol with isWinner := true } ∈
        (declareWinner 4 10 dbWinner).1.submissions)
    ∧ (subDave ∈ (declareWinner 4 10 dbWinner).1.submissions)
    ∧ ({ contest4 with status := "ended"
                       winnerEmail := some "carol@example.com"
                       winnerSubmissionId := some 10 } ∈
        (declareWinner 4 10 dbWinner).1.contests) := by
  obtain ⟨hnf, hsucc⟩ := declare_winner_amended dbWinner 4 10 (by decide) (by decide)
  obtain ⟨h1, h2, h3, h4, h5⟩ := hsucc subCarol (by decide) (by decide)
  refine ⟨?_, h2, h3 subDave (by decide) (by decide), h4 contest4 (by decide) (by decide)⟩
  exact (declare_winner_amended dbWinner 4 99 (by decide) (by decide)).1 (by decide)

/-- C10: declare-winner never checks that the targeted submission
references the contest being closed: for every existing submission and
every existing contest — even with differing contestId and whatever the
contest current status — the call succeeds, marks the submission the
winner, and ends the contest with that submission's owner and id. -/
theorem declare_winner_no_contest_check (db : DB) (cid sid : Oid)
    (s : Submission) (c : Contest)
    (hnds : (db.submissions.map Submission.id).Nodup)
    (hndc : (db.contests.map Contest.id).Nodup)
    (hs : s ∈ db.submissions) (hsid : s.id = sid)
    (hc : c ∈ db.contests) (hcid : c.id = cid) :
    ((declareWinner cid sid db).2 = .declared)
    ∧ ({ s with isWinner := true } ∈ (declareWinner cid sid db).1.submissions)
    ∧ ({ c with status := "ended"
                winnerEmail := some s.userEmail
                winnerSubmissionId := some sid } ∈
        (declareWinner cid sid db).1.contests) := by
  have hfind : db.submissions.find? (fun t => t.id == sid) = some s :=
    find?_eq_some_of_unique _ Submission.id sid
      (fun x hx => by rwa [beq_iff_eq] at hx) db.submissions hnds s hs
      (by rw [beq_iff_eq]; exact hsid)
  refine ⟨?_, ?_, ?_⟩
  · simp only [declareWinner, hfind]
  · simp only [declareWinner, hfind]
    exact mem_updateFirst_self _ _ Submission.id sid
      (fun x hx => by rwa [beq_iff_eq] at hx) db.submissions hnds s hs
      (by rw [beq_iff_eq]; exact hsid)
  · simp only [declareWinner, hfind]
    exact mem_updateFirst_self _ _ Contest.id cid
      (fun x hx => by rwa [beq_iff_eq] at hx) db.contests hndc c hc
      (by rw [beq_iff_eq]; exact hcid)

/-- C10 witness: carol's submission references contest 4, yet declaring it
the winner of the rejected contest 3 succeeds, marks it, and ends contest
3 with carol as its winner. -/
theorem declare_winner_no_contest_check_witness :
    ((declareWinner 3 10 dbMismatch).2 = .declared)
    ∧ ({ subCarol with isWinner := true } ∈
        (declareWinner 3 10 dbMismatch).1.submissions)
    ∧ ({ rejectedContest with status := "ended"
                              winnerEmail := some "carol@example.com"
                              winnerSubmissionId := some 10 } ∈
        (declareWinner 3 10 dbMismatch).1.contests) :=
  declare_winner_no_contest_check dbMismatch 3 10 subCarol rejectedContest
    (by decide) (by decide) (by decide) (by decide) (by decide) (by decide)

end ContestHub
